import Mathlib

/-!
Verification of the ETW buffer monitor (src/main.go): the session-query
engine, the poll/diff state kept by the terminal dashboard's update loop,
and the derived per-session quantities shown by the dashboard and written
to the CSV export.  The Go code is shallowly embedded: uint32 arithmetic
becomes Nat arithmetic with an explicit modulus 2^32 where Go wraps,
float64 arithmetic on counter values becomes exact arithmetic over ℚ
(every operation the code performs on these values - converting a uint32,
dividing by the power of two 1024 - is exact in float64, except for the
utilization division, whose idealization over ℚ is noted at its
definition), the two native QueryAllTracesW calls become an environment
recording the subsystem's responses, and successive time.Now() calls
become an abstract clock indexed by call count.
-/

namespace ETWtop

/-- Modulus of Go uint32 arithmetic. -/
def U32 : Nat := 2 ^ 32

/-- Go constant ERROR_SUCCESS = 0 (src/main.go line 21). -/
def ERROR_SUCCESS : Nat := 0

/-- Go constant ERROR_MORE_DATA = 234 (src/main.go line 22). -/
def ERROR_MORE_DATA : Nat := 234

/-- Go constant MAX_SESSION_NAME_LEN = 1024 (src/main.go line 23): the
number of wide characters reserved for each of the two text fields. -/
def MAX_SESSION_NAME_LEN : Nat := 1024

/-- Size in bytes of the Go struct EVENT_TRACE_PROPERTIES
(src/main.go lines 38-57) on windows/amd64: WNODE_HEADER occupies 48
bytes (4+4+8+8+16+4+4), then 15 uint32 fields and one int32 field occupy
offsets 48..103, LoggerThreadId (8-byte pointer, 8-aligned) occupies
104..111, and the two offset fields occupy 112..119; total 120. -/
def sizeof_EVENT_TRACE_PROPERTIES : Nat := 120

/-- ETWSession (src/main.go lines 60-73).  The uint32 counters are
embedded as Nat (their values lie below 2^32 in the running program);
Timestamp is an abstract clock value. -/
structure ETWSession where
  Name : String
  BufferSize : Nat
  MinimumBuffers : Nat
  MaximumBuffers : Nat
  NumberOfBuffers : Nat
  FreeBuffers : Nat
  BuffersWritten : Nat
  EventsLost : Nat
  RealTimeBuffersLost : Nat
  LogFileMode : Nat
  LogFileName : String
  Timestamp : Nat
deriving DecidableEq

/-- Go uint32 subtraction a - b: both operands reduced mod 2^32, result
wrapped mod 2^32.  For a, b below 2^32 this is (a - b) mod 2^32 in the
two's-complement sense. -/
def u32sub (a b : Nat) : Nat := (a % U32 + (U32 - b % U32)) % U32

/-- ETWSession.UtilizationPercent (src/main.go lines 76-81): zero when
NumberOfBuffers is zero, otherwise the uint32 difference
NumberOfBuffers-FreeBuffers divided by NumberOfBuffers, times 100.  The
float64 division is idealized as exact division in ℚ (the division is
the one operation of the code on these values that can round; the
properties proved below - the zero case, the closed formula, and the
range bounds - are stated of this idealization, and the range bounds
survive rounding since float64 rounding is monotone). -/
def UtilizationPercent (s : ETWSession) : ℚ :=
  if s.NumberOfBuffers = 0 then 0
  else (u32sub s.NumberOfBuffers s.FreeBuffers : ℚ) / (s.NumberOfBuffers : ℚ) * 100

/-- ETWSession.TotalMemoryMB (src/main.go lines 83-85):
NumberOfBuffers*BufferSize is a uint32 multiplication, wrapping modulo
2^32 before the conversion to float64; converting a uint32 to float64 is
exact and dividing by 1024 only shifts the exponent, so the ℚ value here
is exactly the float64 the code computes. -/
def TotalMemoryMB (s : ETWSession) : ℚ :=
  (((s.NumberOfBuffers * s.BufferSize) % U32 : ℕ) : ℚ) / 1024

/-- The Go map model.previousSessions (src/main.go line 141), embedded as
an association list in which the most recent insertion comes first. -/
abbrev PrevMap := List (String × ETWSession)

/-- Go map indexing previousSessions[name] (src/main.go line 313): the
most recent binding of the name, if any. -/
def lookupPrev (m : PrevMap) (k : String) : Option ETWSession :=
  (m.find? (fun p => p.1 == k)).map (fun p => p.2)

/-- Go map assignment previousSessions[session.Name] = session
(src/main.go line 206): the new binding shadows any earlier one. -/
def insertPrev (m : PrevMap) (s : ETWSession) : PrevMap := (s.Name, s) :: m

/-- The fields of the Bubble Tea model (src/main.go lines 138-147) that
the poll/diff state machine reads and writes: the current snapshot and
the retained previous-session map. -/
structure Model where
  sessions : List ETWSession
  previousSessions : PrevMap

/-- initialModel (src/main.go lines 154-163): empty snapshot, empty map. -/
def initialModel : Model := { sessions := [], previousSessions := [] }

/-- The sessionsMsg branch of model.Update (src/main.go lines 203-212):
every record of the outgoing snapshot is inserted into previousSessions,
then sessions is replaced by the new snapshot.  The map is never
cleared. -/
def applySessionsMsg (m : Model) (msg : List ETWSession) : Model :=
  { sessions := msg
    previousSessions := m.sessions.foldl insertPrev m.previousSessions }

/-- The state after the update loop has processed the given sequence of
poll results, oldest first, starting from the initial model. -/
def runPolls (snaps : List (List ETWSession)) : Model :=
  snaps.foldl applySessionsMsg initialModel

/-- The four-counter comparison of model.View (src/main.go lines
315-318): whether any watched counter differs between the previous and
the current record. -/
def watchedDiffer (p s : ETWSession) : Bool :=
  p.NumberOfBuffers != s.NumberOfBuffers || p.FreeBuffers != s.FreeBuffers ||
    p.EventsLost != s.EventsLost || p.BuffersWritten != s.BuffersWritten

/-- hasChanges of model.View (src/main.go lines 313-318): true exactly
when the name is bound in previousSessions and a watched counter
differs. -/
def hasChanges (prev : PrevMap) (s : ETWSession) : Bool :=
  match lookupPrev prev s.Name with
  | none => false
  | some p => watchedDiffer p s

/-- The four row classifications of model.View (src/main.go lines
320-329), named after the colors the code assigns. -/
inductive Severity where
  | lostEvents
  | highUtil
  | changed
  | normal
deriving DecidableEq

/-- The row-style selection of model.View (src/main.go lines 320-329):
lost events first, then high utilization, then changes (suppressed in
single-shot mode), then normal. -/
def rowSeverity (showOnce : Bool) (prev : PrevMap) (s : ETWSession) : Severity :=
  if 0 < s.EventsLost then .lostEvents
  else if 80 < UtilizationPercent s then .highUtil
  else if hasChanges prev s && !showOnce then .changed
  else .normal

/-- The presenter rule list as the specification words it: lost events,
then high utilization over 80 percent, then changed since last poll,
then normal, first match wins; the changed flag is the ChangeSet entry
for the row. -/
def specSeverity (changedFlag : Bool) (s : ETWSession) : Severity :=
  if 0 < s.EventsLost then .lostEvents
  else if 80 < UtilizationPercent s then .highUtil
  else if changedFlag then .changed
  else .normal

/-- The high-utilization warning tally of model.View (src/main.go lines
373-378): the loop increments the counter once per session whose
utilization exceeds 80 percent. -/
def highUtilSessions : List ETWSession → Nat
  | [] => 0
  | s :: rest => (if 80 < UtilizationPercent s then 1 else 0) + highUtilSessions rest

/-- The lost-events warning tally of model.View (src/main.go lines
373-381): the loop increments the counter once per session with a
nonzero lost-event count. -/
def lostEventSessions : List ETWSession → Nat
  | [] => 0
  | s :: rest => (if 0 < s.EventsLost then 1 else 0) + lostEventSessions rest

/-- The per-slot size the allocation phase uses (src/main.go line 433):
the header size plus room for MAX_SESSION_NAME_LEN wide characters - a
single text region, not two. -/
def propertySize : Nat := sizeof_EVENT_TRACE_PROPERTIES + MAX_SESSION_NAME_LEN * 2

/-- The three header fields the allocation loop initializes before the
data call (src/main.go lines 441-444). -/
structure HeaderInit where
  wnodeBufferSize : Nat
  loggerNameOffset : Nat
  logFileNameOffset : Nat
deriving DecidableEq

/-- The initialization written into every slot of the session array
(src/main.go lines 441-444): Wnode.BufferSize gets propertySize,
LoggerNameOffset the struct size, and LogFileNameOffset the name offset
plus MAX_SESSION_NAME_LEN - a character count, not a byte count. -/
def headerInit : HeaderInit :=
  { wnodeBufferSize := propertySize
    loggerNameOffset := sizeof_EVENT_TRACE_PROPERTIES
    logFileNameOffset := sizeof_EVENT_TRACE_PROPERTIES + MAX_SESSION_NAME_LEN }

/-- Lexicographic comparison of two character lists by code point: the
order Go's built-in string comparison implements (byte-wise on UTF-8,
which agrees with code-point order).  Defined as an executable Bool
function so that concrete snapshots evaluate inside proofs. -/
def charListLe : List Char → List Char → Bool
  | [], _ => true
  | _ :: _, [] => false
  | a :: as, b :: bs => if a < b then true else if b < a then false else charListLe as bs

/-- Go string comparison session_i.Name less-or-equal session_j.Name, as
the sort contract of sort.Slice (src/main.go lines 495-497) leaves it:
lexicographic on the characters. -/
def nameLe (a b : String) : Bool := charListLe a.data b.data

/-- The sort of src/main.go lines 495-497: sort.Slice with the strict
name comparison as the less function; its contract is a snapshot in
non-decreasing name order, modelled by insertion sort over nameLe. -/
def sortByName (l : List ETWSession) : List ETWSession :=
  l.insertionSort (fun a b => nameLe a.Name b.Name = true)

/-- One EVENT_TRACE_PROPERTIES slot as the subsystem returns it from the
data call: the counter fields, the (possibly rewritten) log-file-name
offset the code tests, and the two text regions already decoded from
their wide-character form (the decoding itself, utf16PtrToString, reads
a null-terminated region at the offsets; its output is taken as
given here). -/
structure RawHeader where
  BufferSize : Nat
  MinimumBuffers : Nat
  MaximumBuffers : Nat
  NumberOfBuffers : Nat
  FreeBuffers : Nat
  BuffersWritten : Nat
  EventsLost : Nat
  RealTimeBuffersLost : Nat
  LogFileMode : Nat
  LogFileNameOffset : Nat
  LoggerName : String
  LogFileNameText : String
deriving DecidableEq

/-- The responses of the environment during one QueryAllSessions call:
the status and count written by the sizing call, the status of the data
call, the headers the data call fills in, and the clock value returned
by the i-th time.Now() of the decode loop. -/
structure QueryEnv where
  sizingRet : Nat
  sizingCount : Nat
  dataRet : Nat
  headers : List RawHeader
  now : Nat → Nat

/-- The two failure shapes of QueryAllSessions: the sizing-call error of
src/main.go line 425 and the data-call error of line 491, each carrying
the raw status code the fmt.Errorf message embeds. -/
inductive QueryError where
  | sizingFailure (ret : Nat)
  | dataFailure (ret : Nat)
deriving DecidableEq

/-- The per-header body of the decode loop (src/main.go lines 459-488):
counters copied from the header, the name read at the name offset, the
log file name read only when the returned LogFileNameOffset is positive,
and the record stamped with its own time.Now() result t. -/
def decodeHeader (t : Nat) (h : RawHeader) : ETWSession :=
  { Name := h.LoggerName
    BufferSize := h.BufferSize
    MinimumBuffers := h.MinimumBuffers
    MaximumBuffers := h.MaximumBuffers
    NumberOfBuffers := h.NumberOfBuffers
    FreeBuffers := h.FreeBuffers
    BuffersWritten := h.BuffersWritten
    EventsLost := h.EventsLost
    RealTimeBuffersLost := h.RealTimeBuffersLost
    LogFileMode := h.LogFileMode
    LogFileName := if 0 < h.LogFileNameOffset then h.LogFileNameText else ""
    Timestamp := t }

/-- ETWBufferMonitor.QueryAllSessions (src/main.go lines 414-500) over an
environment: a sizing status other than ERROR_MORE_DATA is the sizing
failure with that status embedded; a zero count is the empty snapshot; a
data status other than ERROR_SUCCESS is the data failure; otherwise each
returned header is decoded with its own clock sample and the records are
sorted by name. -/
def QueryAllSessions (env : QueryEnv) : Except QueryError (List ETWSession) :=
  if env.sizingRet ≠ ERROR_MORE_DATA then
    .error (.sizingFailure env.sizingRet)
  else if env.sizingCount = 0 then
    .ok []
  else if env.dataRet = ERROR_SUCCESS then
    .ok (sortByName (env.headers.enum.map (fun p => decodeHeader (env.now p.1) p.2)))
  else
    .error (.dataFailure env.dataRet)

/-- The utilization field of a CSV data row (src/main.go line 537): the
same derived value the dashboard computes, before decimal formatting. -/
def csvUtilizationField (s : ETWSession) : ℚ := UtilizationPercent s

/-- The total-memory field of a CSV data row (src/main.go line 538): the
same derived value the dashboard computes, before decimal formatting. -/
def csvMemoryField (s : ETWSession) : ℚ := TotalMemoryMB s

/-- The memory column of a dashboard row (src/main.go lines 309 and
341): the value of TotalMemoryMB for the session. -/
def viewMemoryField (s : ETWSession) : ℚ := TotalMemoryMB s

/-! Order facts about the name comparison. -/

theorem charListLe_total : ∀ a b : List Char, charListLe a b = true ∨ charListLe b a = true
  | [], _ => Or.inl rfl
  | _ :: _, [] => Or.inr rfl
  | a :: as, b :: bs => by
    by_cases hab : a < b
    · exact Or.inl (by simp [charListLe, hab])
    · by_cases hba : b < a
      · exact Or.inr (by simp [charListLe, hba])
      · rcases charListLe_total as bs with h | h
        · exact Or.inl (by simp [charListLe, hab, hba, h])
        · exact Or.inr (by simp [charListLe, hab, hba, h])

theorem charListLe_trans :
    ∀ a b c : List Char, charListLe a b = true → charListLe b c = true →
      charListLe a c = true
  | [], _, _, _, _ => rfl
  | _ :: _, [], _, h1, _ => by simp [charListLe] at h1
  | _ :: _, _ :: _, [], _, h2 => by simp [charListLe] at h2
  | x :: xs, y :: ys, z :: zs, h1, h2 => by
    by_cases hxy : x < y
    · by_cases hyz : y < z
      · simp [charListLe, lt_trans hxy hyz]
      · by_cases hzy : z < y
        · simp [charListLe, hyz, hzy] at h2
        · have hyz' : y = z := le_antisymm (le_of_not_lt hzy) (le_of_not_lt hyz)
          simp [charListLe, hyz' ▸ hxy]
    · by_cases hyx : y < x
      · simp [charListLe, hxy, hyx] at h1
      · have hxy' : x = y := le_antisymm (le_of_not_lt hyx) (le_of_not_lt hxy)
        subst hxy'
        by_cases hyz : x < z
        · simp [charListLe, hyz]
        · by_cases hzy : z < x
          · simp [charListLe, hyz, hzy] at h2
          · simp [charListLe, hxy, hyx] at h1
            simp [charListLe, hyz, hzy] at h2 ⊢
            exact charListLe_trans xs ys zs h1 h2

/-- A true comparison excludes a strictly descending lexicographic
witness in the other direction. -/
theorem charListLe_not_lex {x y : List Char} (h : charListLe x y = true) :
    ¬ List.Lex (fun a b : Char => a < b) y x := by
  intro hlex
  induction hlex with
  | nil => simp [charListLe] at h
  | @cons a l1 l2 _ ih => exact ih (by simpa [charListLe] using h)
  | @rel a1 l1 a2 l2 hr => simp [charListLe, asymm hr, hr] at h

/-- The Bool comparison is sound for the order of Lean strings, which is
the same lexicographic order on the character lists. -/
theorem nameLe_le {a b : String} (h : nameLe a b = true) : a ≤ b := by
  rw [String.le_iff_toList_le]
  refine le_of_not_lt ?_
  intro hlt
  exact charListLe_not_lex h hlt

instance : IsTotal ETWSession (fun a b => nameLe a.Name b.Name = true) :=
  ⟨fun a b => charListLe_total a.Name.data b.Name.data⟩

instance : IsTrans ETWSession (fun a b => nameLe a.Name b.Name = true) :=
  ⟨fun a b c => charListLe_trans a.Name.data b.Name.data c.Name.data⟩

/-! Shape of the retained previous-session map. -/

theorem foldl_insertPrev (l : List ETWSession) (m : PrevMap) :
    l.foldl insertPrev m = l.reverse.map (fun s => (s.Name, s)) ++ m := by
  induction l generalizing m with
  | nil => simp
  | cons s l ih => simp [insertPrev, ih]

theorem foldl_applySessionsMsg_previous (snaps : List (List ETWSession)) (m : Model) :
    (snaps.foldl applySessionsMsg m).previousSessions =
      ((m.sessions :: snaps).dropLast.flatten.reverse.map (fun s => (s.Name, s)))
        ++ m.previousSessions := by
  induction snaps generalizing m with
  | nil => simp
  | cons t ts ih =>
    simp only [List.foldl_cons, ih, applySessionsMsg, foldl_insertPrev,
      List.dropLast_cons₂, List.flatten_cons, List.reverse_append, List.map_append,
      List.append_assoc]

theorem runPolls_previousSessions (snaps : List (List ETWSession)) :
    (runPolls snaps).previousSessions =
      snaps.dropLast.flatten.reverse.map (fun s => (s.Name, s)) := by
  have h := foldl_applySessionsMsg_previous snaps initialModel
  cases snaps with
  | nil => simp [runPolls, initialModel]
  | cons t ts =>
    simpa [runPolls, initialModel, List.dropLast_cons₂] using h

/-! Arithmetic helpers. -/

theorem U32_eq : U32 = 4294967296 := by norm_num [U32]

theorem u32sub_of_le {a b : Nat} (hba : b ≤ a) (ha : a < U32) : u32sub a b = a - b := by
  have h := U32_eq
  unfold u32sub
  rw [h] at ha ⊢
  omega

/-- Closed form of the utilization once the subtraction cannot wrap:
with FreeBuffers at most NumberOfBuffers (a genuine uint32 value), the
uint32 difference is the rational difference. -/
theorem utilization_eq {s : ETWSession} (hf : s.FreeBuffers ≤ s.NumberOfBuffers)
    (hn : s.NumberOfBuffers < U32) :
    UtilizationPercent s =
      ((s.NumberOfBuffers : ℚ) - (s.FreeBuffers : ℚ)) / (s.NumberOfBuffers : ℚ) * 100 := by
  unfold UtilizationPercent
  by_cases h0 : s.NumberOfBuffers = 0
  · have hf0 : s.FreeBuffers = 0 := by omega
    simp [h0, hf0]
  · rw [if_neg h0, u32sub_of_le hf hn, Nat.cast_sub hf]

theorem highUtilSessions_pos {l : List ETWSession} {s : ETWSession}
    (hs : s ∈ l) (h : 80 < UtilizationPercent s) : 1 ≤ highUtilSessions l := by
  induction l with
  | nil => cases hs
  | cons a t ih =>
    rcases List.mem_cons.mp hs with rfl | hmem
    · simp only [highUtilSessions, if_pos h]
      omega
    · have := ih hmem
      simp only [highUtilSessions]
      omega

theorem lostEventSessions_pos {l : List ETWSession} {s : ETWSession}
    (hs : s ∈ l) (h : 0 < s.EventsLost) : 1 ≤ lostEventSessions l := by
  induction l with
  | nil => cases hs
  | cons a t ih =>
    rcases List.mem_cons.mp hs with rfl | hmem
    · simp only [lostEventSessions, if_pos h]
      omega
    · have := ih hmem
      simp only [lostEventSessions]
      omega

/-! Concrete fixtures for the closed instances below. -/

/-- A session with benign counters, the base of the fixtures. -/
def plainSession : ETWSession :=
  { Name := "S", BufferSize := 64, MinimumBuffers := 2, MaximumBuffers := 8,
    NumberOfBuffers := 4, FreeBuffers := 2, BuffersWritten := 10, EventsLost := 0,
    RealTimeBuffersLost := 0, LogFileMode := 0, LogFileName := "", Timestamp := 0 }

def sessionA : ETWSession := { plainSession with Name := "A" }

def sessionB : ETWSession := { plainSession with Name := "B" }

/-- The middle poll of the retention scenario: no sessions at all. -/
def pollTwo : List ETWSession := []

/-- A session whose buffer product overflows uint32: 65536 buffers of
65536 bytes, product 2 to the 32nd. -/
def sessionOverflow : ETWSession :=
  { plainSession with NumberOfBuffers := 65536, BufferSize := 65536 }

/-- A session with more free buffers than current buffers, where the
uint32 subtraction of the utilization wraps. -/
def sessionWrap : ETWSession :=
  { plainSession with NumberOfBuffers := 1, FreeBuffers := 2 }

/-- End-to-end fixture: 20 buffers, 18 free, nothing lost; 10 percent
utilization. -/
def demoQuiet : ETWSession :=
  { plainSession with NumberOfBuffers := 20, FreeBuffers := 18, EventsLost := 0 }

/-- End-to-end fixture: 10 buffers, 1 free, 5 events lost; 90 percent
utilization and lost events at once. -/
def demoLost : ETWSession :=
  { plainSession with NumberOfBuffers := 10, FreeBuffers := 1, EventsLost := 5 }

def headerA : RawHeader :=
  { BufferSize := 64, MinimumBuffers := 2, MaximumBuffers := 8, NumberOfBuffers := 4,
    FreeBuffers := 2, BuffersWritten := 10, EventsLost := 0, RealTimeBuffersLost := 0,
    LogFileMode := 0, LogFileNameOffset := 0, LoggerName := "A", LogFileNameText := "" }

def headerB : RawHeader := { headerA with LoggerName := "B" }

/-- A two-session environment whose clock advances between the two
time.Now() calls of the decode loop. -/
def envTwo : QueryEnv :=
  { sizingRet := 234, sizingCount := 2, dataRet := 0, headers := [headerA, headerB],
    now := fun i => i }

/-- The same environment with a clock frozen at 7. -/
def envSteady : QueryEnv := { envTwo with now := fun _ => 7 }

/-! Claims about the retained previous state (C1). -/

/-- Claim C1 counterexample: after the polls [sessionA], then an empty
poll, then [sessionB], the retained previous state still holds the
record named A, although the immediately preceding completed poll (the
empty second poll) has no record of that name - the map is merged into,
never replaced wholesale. -/
theorem C1_counterexample :
    lookupPrev (runPolls [[sessionA], pollTwo, [sessionB]]).previousSessions "A"
      = some sessionA
    ∧ ∀ s ∈ pollTwo, s.Name ≠ "A" :=
  ⟨by decide, by simp [pollTwo]⟩

/-- Claim C1 (amended): every record held by the retained previous state
carries the name it is filed under and comes from some earlier completed
poll's snapshot - not necessarily the immediately preceding one, since
the map previousSessions is only ever inserted into. -/
theorem C1_previous_from_earlier_poll (snaps : List (List ETWSession))
    (name : String) (r : ETWSession)
    (h : lookupPrev (runPolls snaps).previousSessions name = some r) :
    r.Name = name ∧ ∃ snap ∈ snaps.dropLast, r ∈ snap := by
  rw [runPolls_previousSessions] at h
  unfold lookupPrev at h
  rcases Option.map_eq_some'.mp h with ⟨p, hfind, hp2⟩
  have hmem := List.mem_of_find?_eq_some hfind
  have hpred := List.find?_some hfind
  rcases List.mem_map.mp hmem with ⟨t, htmem, hmk⟩
  cases hmk
  cases hp2
  simp only [beq_iff_eq] at hpred
  refine ⟨hpred, ?_⟩
  rw [List.mem_reverse] at htmem
  exact List.mem_flatten.mp htmem

/-- Claim C1 witness: the amended statement evaluated at the concrete
three-poll scenario. -/
theorem C1_witness :
    sessionA.Name = "A"
    ∧ ∃ snap ∈ ([[sessionA], pollTwo, [sessionB]] : List (List ETWSession)).dropLast,
        sessionA ∈ snap :=
  C1_previous_from_earlier_poll [[sessionA], pollTwo, [sessionB]] "A" sessionA (by decide)

/-! Claims about the poll timestamp (C2). -/

/-- Claim C2 counterexample: in an environment whose clock advances
between the two time.Now() calls of the decode loop, the two records of
one successful poll carry different observedAt timestamps. -/
theorem C2_counterexample :
    QueryAllSessions envTwo = .ok [decodeHeader 0 headerA, decodeHeader 1 headerB]
    ∧ (decodeHeader 0 headerA).Timestamp ≠ (decodeHeader 1 headerB).Timestamp :=
  ⟨rfl, by decide⟩

/-- Claim C2 (amended): each record is stamped by its own time.Now()
call; when the clock returns the same value for every call of the poll,
every record of a successful snapshot carries that shared value. -/
theorem C2_shared_timestamp_of_steady_clock (env : QueryEnv)
    (hclock : ∀ i, env.now i = env.now 0) (out : List ETWSession)
    (hok : QueryAllSessions env = .ok out) :
    ∀ s ∈ out, s.Timestamp = env.now 0 := by
  intro s hs
  unfold QueryAllSessions at hok
  split at hok
  · cases hok
  · split at hok
    · cases hok
      cases hs
    · split at hok
      · cases hok
        have hs2 := (List.mem_insertionSort _).mp hs
        rcases List.mem_map.mp hs2 with ⟨p, hp, rfl⟩
        exact hclock p.1
      · cases hok

/-- Claim C2 witness: the amended statement evaluated at a concrete
environment with the clock frozen at 7. -/
theorem C2_witness : (decodeHeader 7 headerA).Timestamp = 7 :=
  C2_shared_timestamp_of_steady_clock envSteady (fun _ => rfl)
    [decodeHeader 7 headerA, decodeHeader 7 headerB] rfl
    (decodeHeader 7 headerA) (List.mem_cons_self _ _)

/-! Claim about the allocation-phase header initialization (C3). -/

/-- Claim C3, evaluated on the code: the total-buffer-size field is set
to 2168 = header (120) plus ONE maximum-length wide text region (2048),
not the 4216 = header plus BOTH regions the claim (and the platform
contract) requires; and the log-file-name offset 1144 = 120 + 1024 adds
the character count instead of the byte count 2048, so it falls 1024
bytes short of the end of the name region - the two text regions
overlap. -/
theorem C3_header_init_eval :
    headerInit.wnodeBufferSize = 2168
    ∧ sizeof_EVENT_TRACE_PROPERTIES + 2 * (MAX_SESSION_NAME_LEN * 2) = 4216
    ∧ headerInit.wnodeBufferSize ≠ sizeof_EVENT_TRACE_PROPERTIES + 2 * (MAX_SESSION_NAME_LEN * 2)
    ∧ headerInit.logFileNameOffset = 1144
    ∧ headerInit.logFileNameOffset < headerInit.loggerNameOffset + MAX_SESSION_NAME_LEN * 2 := by
  decide

/-! Claim about the sizing-call contract (C4). -/

/-- Claim C4: when the sizing call returns ERROR_MORE_DATA with a count
of zero, QueryAllSessions returns the empty snapshot and no error; and a
sizing failure is returned exactly when the sizing status differs from
ERROR_MORE_DATA, with the raw status embedded in the error. -/
theorem C4_sizing_contract (env : QueryEnv) :
    (env.sizingRet = ERROR_MORE_DATA → env.sizingCount = 0 →
      QueryAllSessions env = .ok [])
    ∧ ∀ r, (QueryAllSessions env = .error (.sizingFailure r) ↔
        env.sizingRet ≠ ERROR_MORE_DATA ∧ r = env.sizingRet) := by
  constructor
  · intro h1 h2
    simp [QueryAllSessions, h1, h2]
  · intro r
    by_cases h1 : env.sizingRet = ERROR_MORE_DATA
    · by_cases h2 : env.sizingCount = 0
      · simp [QueryAllSessions, h1, h2]
      · by_cases h3 : env.dataRet = ERROR_SUCCESS
        · simp [QueryAllSessions, h1, h2, h3]
        · simp [QueryAllSessions, h1, h2, h3]
    · simp [QueryAllSessions, h1, eq_comm]

/-! Claims about the derived memory value (C5, C10). -/

/-- Claim C5 counterexample: at 65536 buffers of 65536 bytes the uint32
product wraps to 0, so the reported memory value is not the product of
the counters divided by 1024. -/
theorem C5_counterexample :
    viewMemoryField sessionOverflow ≠
      (sessionOverflow.NumberOfBuffers : ℚ) * (sessionOverflow.BufferSize : ℚ) / 1024 := by
  norm_num [viewMemoryField, TotalMemoryMB, sessionOverflow, plainSession, U32]

/-- Claim C5 (amended): the dashboard and the export use one and the
same derived memory value, equal to the uint32 product of
NumberOfBuffers and BufferSize divided by 1024, which is the plain
product divided by 1024 whenever the product fits in 32 bits. -/
theorem C5_memory_value_consistent (s : ETWSession) :
    viewMemoryField s = csvMemoryField s
    ∧ csvMemoryField s = (((s.NumberOfBuffers * s.BufferSize) % U32 : ℕ) : ℚ) / 1024
    ∧ (s.NumberOfBuffers * s.BufferSize < U32 →
        csvMemoryField s = (s.NumberOfBuffers : ℚ) * (s.BufferSize : ℚ) / 1024) := by
  refine ⟨rfl, rfl, fun h => ?_⟩
  unfold csvMemoryField TotalMemoryMB
  rw [Nat.mod_eq_of_lt h]
  push_cast
  ring

/-- Claim C10: the reported total memory is the uint32-wrapped product
divided by 1024, and whenever the true product reaches 2 to the 32nd the
reported value differs from the true product divided by 1024. -/
theorem C10_memory_wraparound (s : ETWSession) :
    TotalMemoryMB s = (((s.NumberOfBuffers * s.BufferSize) % U32 : ℕ) : ℚ) / 1024
    ∧ (U32 ≤ s.NumberOfBuffers * s.BufferSize →
        TotalMemoryMB s ≠ (s.NumberOfBuffers : ℚ) * (s.BufferSize : ℚ) / 1024) := by
  refine ⟨rfl, fun h heq => ?_⟩
  unfold TotalMemoryMB at heq
  rw [div_eq_div_iff (by norm_num) (by norm_num)] at heq
  have hcast : ((s.NumberOfBuffers * s.BufferSize) % U32 : ℕ)
      = s.NumberOfBuffers * s.BufferSize := by
    have h2 := mul_right_cancel₀ (show (1024:ℚ) ≠ 0 by norm_num) heq
    exact_mod_cast h2
  have hlt : (s.NumberOfBuffers * s.BufferSize) % U32 < s.NumberOfBuffers * s.BufferSize :=
    lt_of_lt_of_le (Nat.mod_lt _ (by rw [U32_eq]; omega)) h
  omega

/-! Claims about the derived utilization (C6). -/

/-- Claim C6 counterexample: with 1 current buffer and 2 free buffers
the uint32 subtraction wraps, and the computed utilization differs from
the rational formula (which would give -100). -/
theorem C6_counterexample :
    UtilizationPercent sessionWrap ≠
      ((sessionWrap.NumberOfBuffers : ℚ) - (sessionWrap.FreeBuffers : ℚ))
        / (sessionWrap.NumberOfBuffers : ℚ) * 100 := by
  norm_num [UtilizationPercent, u32sub, sessionWrap, plainSession, U32]

/-- Claim C6 (amended): utilization is exactly 0 when NumberOfBuffers is
0; it equals (current - free) / current * 100 whenever free is at most
current (uint32 values, so current below 2 to the 32nd; when free
exceeds current the uint32 subtraction wraps instead); and under the
same conditions it lies in the closed interval from 0 to 100. -/
theorem C6_utilization (s : ETWSession) :
    (s.NumberOfBuffers = 0 → UtilizationPercent s = 0)
    ∧ (s.FreeBuffers ≤ s.NumberOfBuffers → s.NumberOfBuffers < U32 →
        UtilizationPercent s =
          ((s.NumberOfBuffers : ℚ) - (s.FreeBuffers : ℚ))
            / (s.NumberOfBuffers : ℚ) * 100)
    ∧ (s.FreeBuffers ≤ s.NumberOfBuffers → s.NumberOfBuffers < U32 →
        0 ≤ UtilizationPercent s ∧ UtilizationPercent s ≤ 100) := by
  refine ⟨fun h0 => by simp [UtilizationPercent, h0],
    fun hf hn => utilization_eq hf hn, fun hf hn => ?_⟩
  by_cases h0 : s.NumberOfBuffers = 0
  · simp [UtilizationPercent, h0]
  · rw [utilization_eq hf hn]
    have hnpos : (0:ℚ) < (s.NumberOfBuffers : ℚ) := by
      exact_mod_cast Nat.pos_of_ne_zero h0
    have hfle : (s.FreeBuffers : ℚ) ≤ (s.NumberOfBuffers : ℚ) := by exact_mod_cast hf
    have hnum : (0:ℚ) ≤ (s.NumberOfBuffers : ℚ) - s.FreeBuffers := by linarith
    constructor
    · exact mul_nonneg (div_nonneg hnum hnpos.le) (by norm_num)
    · have h1 : ((s.NumberOfBuffers : ℚ) - s.FreeBuffers) / s.NumberOfBuffers ≤ 1 := by
        rw [div_le_one hnpos]
        linarith
      have h2 := mul_le_mul_of_nonneg_right h1 (show (0:ℚ) ≤ 100 by norm_num)
      linarith

/-! Claim about the change flag (C7). -/

/-- Claim C7: a session is flagged as changed exactly when the retained
previous state binds its name and one of the four watched counters
differs; a session whose name is unbound is never flagged. -/
theorem C7_change_flag (prev : PrevMap) (s : ETWSession) :
    (hasChanges prev s = true ↔
      ∃ p, lookupPrev prev s.Name = some p ∧
        (p.NumberOfBuffers ≠ s.NumberOfBuffers ∨ p.FreeBuffers ≠ s.FreeBuffers ∨
          p.EventsLost ≠ s.EventsLost ∨ p.BuffersWritten ≠ s.BuffersWritten))
    ∧ (lookupPrev prev s.Name = none → hasChanges prev s = false) := by
  constructor
  · unfold hasChanges
    cases h : lookupPrev prev s.Name with
    | none => simp [h]
    | some p => simp [h, watchedDiffer, bne_iff_ne, or_assoc]
  · intro h
    simp [hasChanges, h]

/-! Claim about the severity classification and the warning tallies (C8). -/

/-- Claim C8: in continuous mode the row classification is exactly the
first-match rule list lost events, high utilization, changed, normal
with the ChangeSet flag as the changed rule (and in single-shot mode,
where the retained state is empty, the same holds); any session with
both lost events and high utilization is counted by both warning
tallies; and on the two-session end-to-end fixture the lossy row
classifies as lost events while each tally reports exactly one
session. -/
theorem C8_severity_priority (prev : PrevMap) (s : ETWSession) (l : List ETWSession) :
    rowSeverity false prev s = specSeverity (hasChanges prev s) s
    ∧ rowSeverity true [] s = specSeverity (hasChanges [] s) s
    ∧ (s ∈ l → 0 < s.EventsLost → 80 < UtilizationPercent s →
        1 ≤ highUtilSessions l ∧ 1 ≤ lostEventSessions l)
    ∧ rowSeverity false [] demoLost = Severity.lostEvents
    ∧ highUtilSessions [demoQuiet, demoLost] = 1
    ∧ lostEventSessions [demoQuiet, demoLost] = 1 := by
  refine ⟨?_, ?_,
    fun hmem h1 h2 => ⟨highUtilSessions_pos hmem h2, lostEventSessions_pos hmem h1⟩,
    ?_, ?_, ?_⟩
  · simp [rowSeverity, specSeverity]
  · simp [rowSeverity, specSeverity, hasChanges, lookupPrev]
  · norm_num [rowSeverity, demoLost, plainSession]
  · norm_num [highUtilSessions, UtilizationPercent, u32sub, demoQuiet, demoLost,
      plainSession, U32]
  · norm_num [lostEventSessions, demoQuiet, demoLost, plainSession]

/-! Claim about snapshot ordering (C9). -/

/-- Claim C9: every snapshot a successful QueryAllSessions returns is in
non-decreasing name order - whenever record a precedes record b, the
name of a is at most the name of b. -/
theorem C9_snapshot_sorted (env : QueryEnv) (out : List ETWSession)
    (h : QueryAllSessions env = .ok out) :
    List.Pairwise (fun a b => a.Name ≤ b.Name) out := by
  unfold QueryAllSessions at h
  split at h
  · cases h
  · split at h
    · cases h
      exact List.Pairwise.nil
    · split at h
      · cases h
        have hs := List.sorted_insertionSort
          (fun a b : ETWSession => nameLe a.Name b.Name = true)
          (env.headers.enum.map (fun p => decodeHeader (env.now p.1) p.2))
        exact hs.imp (fun hab => nameLe_le hab)
      · cases h

/-- Claim C9 witness: the sorting statement evaluated on the concrete
two-session environment. -/
theorem C9_witness :
    List.Pairwise (fun a b : ETWSession => a.Name ≤ b.Name)
      [decodeHeader 0 headerA, decodeHeader 1 headerB] :=
  C9_snapshot_sorted envTwo [decodeHeader 0 headerA, decodeHeader 1 headerB] rfl

end ETWtop
